import Mathlib

/-!
Verification model of the snippet-execution HTTP server (`node_server.js`).

The server-side JavaScript is shallowly embedded: host functionality
(JSON.parse, V8 error stacks, compiling/running a snippet in a vm context,
the filesystem seen by the module resolver) is abstracted into oracle
records (`Host`, `ResolveEnv`), and every piece of control flow written in
`node_server.js` itself (the `end` handler of `POST /run`, `sendError`,
`makeConsoleCollector`, `safeRequire`) is translated into Lean functions
over those oracles.
-/

/-- Severity levels of the console collector (`makeConsoleCollector`). -/
inductive Level where
  | log
  | info
  | warn
  | error
deriving DecidableEq, Repr

/-- One captured console record: `logs.push({ level, message: msg })`. -/
structure LogRecord where
  level : Level
  message : String
deriving DecidableEq, Repr

/-- JSON-like JavaScript values as they flow through the handler.
`undefined` stands for the JavaScript value `undefined` (never produced by
JSON.parse, but produced by property lookup misses and by snippets that
return no value). Numbers are not needed by any claim and are represented
by `num` over `Int` only so that concrete payloads can be written. -/
inductive JValue where
  | undefined
  | null
  | bool (b : Bool)
  | num (n : Int)
  | str (s : String)
  | arr (elems : List JValue)
  | obj (fields : List (String × JValue))

/-- A thrown JavaScript error as observed by the handler: its `String(e)`
rendering and its `stack` property (`none` when absent). -/
structure JSError where
  toStr : String
  stack : Option String

/-- Outcome of `new Script(code)` followed by `script.runInContext(context)`:
either compilation throws, or execution throws after emitting some console
events, or execution completes with a value after emitting some console
events. Events carry the level and the already-stringified arguments of one
sandbox console call. -/
inductive ExecOutcome where
  | compileError (e : JSError)
  | runtimeError (events : List (Level × List String)) (e : JSError)
  | success (events : List (Level × List String)) (value : JValue)

/-- Host oracles: behavior supplied by Node/V8, not by `node_server.js`.
`parse s` is `JSON.parse s` (`Except.error m` when it throws with
`err.message = m`); `newErrorStack m` is the `stack` of `new Error(m)`;
`nullAccessError key` is the TypeError thrown by reading property `key`
of `null`/`undefined`; `exec code` is the compile-and-run outcome of the
snippet `code`. -/
structure Host where
  parse : String → Except String JValue
  newErrorStack : String → Option String
  nullAccessError : String → JSError
  exec : String → ExecOutcome

/-- `args.map((a) => String(a)).join(" ")` with args already stringified. -/
def renderArgs (args : List String) : String :=
  String.intercalate " " args

/-- One call of a collector capture function: appends a record with the
call level and the space-joined rendering of the arguments. -/
def recordCall (lvl : Level) (args : List String) (logs : List LogRecord) : List LogRecord :=
  logs ++ [⟨lvl, renderArgs args⟩]

/-- The log sequence produced by a list of console calls, in call order,
starting from the fresh collector of one request. -/
def collectEvents (events : List (Level × List String)) : List LogRecord :=
  events.foldl (fun logs ev => recordCall ev.1 ev.2 logs) []

/-- Boolean test: the second list occurs as a leading segment of the first
argument order: `leadsWith sub l` means `l` starts with `sub`. -/
def leadsWith : List Char → List Char → Bool
  | [], _ => true
  | _ :: _, [] => false
  | a :: as, b :: bs => a == b && leadsWith as bs

/-- Boolean test: `sub` occurs contiguously somewhere inside the list. -/
def hasSub (sub : List Char) : List Char → Bool
  | [] => leadsWith sub []
  | c :: rest => leadsWith sub (c :: rest) || hasSub sub rest

/-- JavaScript `s.includes (sub)` on strings. -/
def strIncludes (s sub : String) : Bool :=
  hasSub sub.data s.data

/-- `String(new Error(msg))`, i.e. `Error.prototype.toString` with the
default name: `"Error: " + msg`. -/
def errorToString (msg : String) : String :=
  "Error: " ++ msg

/-- `error.stack ? " | stack: " + error.stack : ""` — note that an empty
stack string is falsy in JavaScript. -/
def stackSuffix : Option String → String
  | some st => if st = "" then "" else " | stack: " ++ st
  | none => ""

/-- `String(error) + (error.stack ? " | stack: " + error.stack : "")`. -/
def renderFullError (e : JSError) : String :=
  e.toStr ++ stackSuffix e.stack

/-- A JSON HTTP response: status code and the serialized body object. -/
structure Response where
  status : Nat
  body : JValue

/-- Rendering of a level into its JSON string. -/
def levelName : Level → String
  | .log => "log"
  | .info => "info"
  | .warn => "warn"
  | .error => "error"

/-- Serialization of one log record: `{ level, message }`, level first. -/
def logRecordToJson (r : LogRecord) : JValue :=
  .obj [("level", .str (levelName r.level)), ("message", .str r.message)]

/-- Serialization of the logs array. -/
def logsToJson (logs : List LogRecord) : JValue :=
  .arr (logs.map logRecordToJson)

/-- `sendError(status, error)`: writes the given status and the body
`{ ok: false, error: String(error), logs: [] }` — the logs field is the
literal empty array in the source. -/
def sendError (status : Nat) (error : String) : Response :=
  ⟨status, .obj [("ok", .bool false), ("error", .str error), ("logs", .arr [])]⟩

/-- The `Missing code` rejection:
`res.writeHead(400); res.end(JSON.stringify({ ok: false, error: "Missing code" }))`. -/
def missingCodeResponse : Response :=
  ⟨400, .obj [("ok", .bool false), ("error", .str "Missing code")]⟩

/-- Last-binding lookup in an object field list (later duplicate keys win,
as in a JavaScript object literal built by JSON.parse). -/
def lookupLast (fields : List (String × JValue)) (key : String) : Option JValue :=
  fields.foldl (fun acc kv => if kv.1 = key then some kv.2 else acc) none

/-- Field access on a serialized JSON body, for stating response shapes. -/
def jsonField (v : JValue) (key : String) : Option JValue :=
  match v with
  | .obj fields => lookupLast fields key
  | _ => none

/-- JavaScript property read `v.key` as performed by `payload.code`:
reading a property of `null` (or `undefined`) throws a TypeError; reading a
missing property of anything else yields `undefined`. -/
def getField (host : Host) (v : JValue) (key : String) : Except JSError JValue :=
  match v with
  | .null => .error (host.nullAccessError key)
  | .undefined => .error (host.nullAccessError key)
  | .obj fields => .ok ((lookupLast fields key).getD .undefined)
  | _ => .ok .undefined

/-- `typeof v === "string"`. -/
def typeofIsString : JValue → Bool
  | .str _ => true
  | _ => false

/-- `result ?? null`: nullish coalescing of the snippet value. -/
def nullCoalesce : JValue → JValue
  | .undefined => .null
  | .null => .null
  | v => v

/-- The conditional push of the outer catch block:
`if (logs.length === 0 || !logs.some((log) => log.message && log.message.includes(errorMsg)))`
then `logs.push({ level: "error", message: "Server execution error: " + fullError })`. -/
def dedupPush (logs : List LogRecord) (errorMsg fullError : String) : List LogRecord :=
  if logs.length = 0 || !(logs.any fun r => r.message != "" && strIncludes r.message errorMsg)
  then logs ++ [⟨.error, "Server execution error: " ++ fullError⟩]
  else logs

/-- The outer catch block of the `end` handler: computes the rendered
error, performs the deduplicated push into the per-request logs, and sends
a 500 via `sendError`. Returns the response together with the final state
of the per-request log sequence. -/
def outerCatch (logs : List LogRecord) (e : JSError) : Response × List LogRecord :=
  let errorMsg := e.toStr
  let fullError := renderFullError e
  let logs2 := dedupPush logs errorMsg fullError
  (sendError 500 fullError, logs2)

/-- `JSON.parse(body || "{}")`: an empty accumulated body is falsy and is
replaced by the literal two-character string of an opening and a closing
brace before parsing. -/
def effectiveBody (body : String) : String :=
  if body = "" then "\x7b\x7d" else body

/-- Compile and run the snippet once the `code` string has been extracted:
`new Script(code)` then `script.runInContext(context)`. A runtime throw
first pushes the `Script execution error` record (unconditionally), then
rethrows into the outer catch; a compile throw goes to the outer catch
directly; success responds 200 with `result ?? null` and the logs. -/
def runSnippet (host : Host) (code : String) : Response × List LogRecord :=
  match host.exec code with
  | .compileError e => outerCatch [] e
  | .runtimeError events e =>
      let execLogs := collectEvents events
      let fullError := renderFullError e
      let logs1 := execLogs ++ [⟨.error, "Script execution error: " ++ fullError⟩]
      outerCatch logs1 e
  | .success events value =>
      let logs := collectEvents events
      (⟨200, .obj [("ok", .bool true), ("result", nullCoalesce value),
                   ("logs", logsToJson logs)]⟩, logs)

/-- The handler after a successful parse: the `typeof payload.code`
gate (a TypeError from reading `.code` on `null` lands in the outer
catch), then snippet execution. -/
def withPayload (host : Host) (payload : JValue) : Response × List LogRecord :=
  match getField host payload "code" with
  | .error e => outerCatch [] e
  | .ok codeVal =>
      match codeVal with
      | .str code => runSnippet host code
      | _ => (missingCodeResponse, [])

/-- The `end` handler of `POST /run` in `node_server.js`, from the point
where the body has been fully accumulated. Returns the response sent and
the final contents of the per-request log sequence (which the source also
reports to its diagnostic sink). A parse failure is wrapped as
`new Error("Invalid JSON: " + err.message)` and rethrown into the outer
catch. -/
def handleRunEnd (host : Host) (body : String) : Response × List LogRecord :=
  match host.parse (effectiveBody body) with
  | .error msg =>
      let wrappedMsg := "Invalid JSON: " ++ msg
      outerCatch [] ⟨errorToString wrappedMsg, host.newErrorStack wrappedMsg⟩
  | .ok payload => withPayload host payload

/-- Filesystem and path oracles seen by `safeRequire`: the fixed examples
base directory, the current working directory, `path.resolve`,
`fs.existsSync` and `fs.realpathSync`. -/
structure ResolveEnv where
  examplesPath : String
  cwd : String
  resolve : String → String → String
  pathExists : String → Bool
  realpath : String → String

/-- `id.startsWith("./") || id.startsWith("../")`, with the two prefix
tests spelled out over the character data so they evaluate. -/
def isRelativeSpecifier (id : String) : Bool :=
  leadsWith "./".data id.data || leadsWith "../".data id.data

/-- The action `safeRequire` decides on for a specifier: load a resolved
path sandboxed (after evicting its cache entry), fail with module-not-found
(carrying both attempted paths), or fall through to the host `require`. -/
inductive RequireStep where
  | sandboxLoad (resolvedPath realPath : String)
  | sandboxFail (id resolvedPath cwdPath : String)
  | passThrough (id : String)
deriving Repr

/-- The resolution logic of `safeRequire` in `node_server.js`: a relative
specifier is resolved against the examples directory first; if that path
does not exist, against the process working directory; if neither exists
the load fails; non-relative specifiers pass through to the host loader. -/
def safeRequirePlan (env : ResolveEnv) (id : String) : RequireStep :=
  if isRelativeSpecifier id then
    let resolvedPath := env.resolve env.examplesPath id
    if env.pathExists resolvedPath then
      .sandboxLoad resolvedPath (env.realpath resolvedPath)
    else
      let cwdPath := env.resolve env.cwd id
      if env.pathExists cwdPath then
        .sandboxLoad cwdPath (env.realpath cwdPath)
      else
        .sandboxFail id resolvedPath cwdPath
  else
    .passThrough id

/-- Message of the error thrown on the not-found branch:
`new Error("Cannot find module '" + id + "'")`. -/
def moduleNotFoundMsg (id : String) : String :=
  "Cannot find module \x27" ++ id ++ "\x27"

/-- Arguments of the diagnostic emitted on the not-found branch:
`logError("require failed for", id, "resolved paths:", resolvedPath, cwdPath)`. -/
def requireFailDiag (id resolvedPath cwdPath : String) : List String :=
  ["require failed for", id, "resolved paths:", resolvedPath, cwdPath]

/-- The module cache (`require.cache`) as a key/value association from
resolved real paths to loaded module values. -/
def cacheLookup : List (String × JValue) → String → Option JValue
  | [], _ => none
  | kv :: rest, key => if kv.1 = key then some kv.2 else cacheLookup rest key

/-- Effect of `delete require.cache[realPath]`. -/
def cacheAfterDelete (cache : List (String × JValue)) (key : String) : List (String × JValue) :=
  cache.filter (fun kv => kv.1 != key)

/-- A concrete host used to evaluate the model on concrete requests. Its
oracle answers reproduce standard Node/V8 behavior on the handful of
inputs the concrete requests use: parsing the empty-object body, a
`null` body, bodies carrying a `code` string, and a non-JSON body; a
snippet `1+1` evaluating to 2; a snippet `boom` that logs once and then
throws `Error: boom`; a snippet `bad syntax` that fails to compile. -/
def basicParse : String → Except String JValue := fun s =>
  if s = "\x7b\x7d" then .ok (.obj [])
  else if s = "null" then .ok .null
  else if s = "\x7b\"code\":5\x7d" then .ok (.obj [("code", .num 5)])
  else if s = "\x7b\"code\":\"1+1\"\x7d" then .ok (.obj [("code", .str "1+1")])
  else if s = "\x7b\"code\":\"boom\"\x7d" then .ok (.obj [("code", .str "boom")])
  else if s = "\x7b\"code\":\"bad syntax\"\x7d" then .ok (.obj [("code", .str "bad syntax")])
  else .error "Unexpected token"

/-- Concrete snippet outcomes for the host above. -/
def basicExec : String → ExecOutcome := fun code =>
  if code = "1+1" then .success [] (.num 2)
  else if code = "boom" then
    .runtimeError [(.log, ["hi"])]
      ⟨"Error: boom", some "Error: boom\n    at user-code.js:1"⟩
  else if code = "bad syntax" then
    .compileError ⟨"SyntaxError: Unexpected identifier", none⟩
  else .success [] .undefined

/-- The concrete host assembled from the oracles above. -/
def basicHost : Host :=
  { parse := basicParse
  , newErrorStack := fun m => some (errorToString m ++ "\n    at parse")
  , nullAccessError := fun key =>
      ⟨"TypeError: Cannot read properties of null (reading \x27" ++ key ++ "\x27)",
       some "TypeError stack"⟩
  , exec := basicExec }

/-- A concrete resolver environment in which no candidate path exists. -/
def sampleEnvMissing : ResolveEnv :=
  { examplesPath := "/srv/app/examples"
  , cwd := "/srv/app"
  , resolve := fun base p => base ++ "/" ++ p
  , pathExists := fun _ => false
  , realpath := fun p => p }

/-- A concrete resolver environment in which the examples candidate exists. -/
def sampleEnvFound : ResolveEnv :=
  { examplesPath := "/srv/app/examples"
  , cwd := "/srv/app"
  , resolve := fun base p => base ++ "/" ++ p
  , pathExists := fun p => p = "/srv/app/examples/./mod.js"
  , realpath := fun _ => "/srv/app/examples/mod.js" }

/-- A leading segment of a concatenation is detected by `leadsWith`. -/
theorem leadsWith_append_self (m b : List Char) : leadsWith m (m ++ b) = true := by
  induction m with
  | nil => simp [leadsWith]
  | cons c cs ih => simp [leadsWith, ih]

/-- The empty list is found anywhere by `hasSub`. -/
theorem hasSub_nil (l : List Char) : hasSub [] l = true := by
  cases l with
  | nil => rfl
  | cons c rest => simp [hasSub, leadsWith]

/-- A list whose own content leads is detected by `hasSub`. -/
theorem hasSub_self_append (m b : List Char) : hasSub m (m ++ b) = true := by
  cases m with
  | nil => simpa using hasSub_nil b
  | cons x xs =>
    simp only [List.cons_append]
    rw [hasSub]
    have h := leadsWith_append_self (x :: xs) b
    simp only [List.cons_append] at h
    rw [h]
    simp

/-- A contiguous occurrence between arbitrary flanks is detected by `hasSub`. -/
theorem hasSub_append (a m b : List Char) : hasSub m (a ++ m ++ b) = true := by
  induction a with
  | nil => simpa using hasSub_self_append m b
  | cons c cs ih =>
    simp only [List.cons_append]
    rw [hasSub]
    simp only [List.append_assoc] at ih ⊢
    rw [ih]
    simp

/-- `String` version: a string containing `m` between two flanks includes `m`. -/
theorem strIncludes_append (a m b : String) : strIncludes (a ++ m ++ b) m = true := by
  have hdata : (a ++ m ++ b).data = a.data ++ m.data ++ b.data := by
    simp [String.data_append]
  rw [strIncludes, hdata]
  exact hasSub_append a.data m.data b.data

/-- `String` version: a string containing `m` between two flanks includes `m`. -/
theorem strIncludes_mid (a m b : String) : strIncludes (a ++ (m ++ b)) m = true := by
  rw [strIncludes, String.data_append, String.data_append, ← List.append_assoc]
  exact hasSub_append a.data m.data b.data

/-- A concatenation whose left part has nonempty data is a nonempty string. -/
theorem strAppend_ne_empty (a b : String) (ha : a.data ≠ []) : a ++ b ≠ "" := by
  intro h
  apply ha
  have hd : (a ++ b).data = "".data := by rw [h]
  rw [String.data_append] at hd
  simp only [List.append_eq_nil] at hd
  exact hd.1

/-- Folding the collector over events from any initial sequence appends the
rendered records in event order. -/
theorem collectEvents_from (events : List (Level × List String)) (init : List LogRecord) :
    events.foldl (fun logs ev => recordCall ev.1 ev.2 logs) init
      = init ++ events.map (fun ev => ⟨ev.1, renderArgs ev.2⟩) := by
  induction events generalizing init with
  | nil => simp
  | cons e rest ih =>
    rw [List.foldl_cons, ih, List.map_cons]
    simp [recordCall]

/-- The dedup guard of the outer catch does not push when some record of
the sequence has a truthy message that includes the error text. -/
theorem dedupPush_no_push (logs : List LogRecord) (errorMsg fullError : String)
    (r : LogRecord) (hr : r ∈ logs) (hne : r.message ≠ "")
    (hinc : strIncludes r.message errorMsg = true) :
    dedupPush logs errorMsg fullError = logs := by
  unfold dedupPush
  have hany : (logs.any fun rec => rec.message != "" && strIncludes rec.message errorMsg) = true := by
    rw [List.any_eq_true]
    exact ⟨r, hr, by rw [Bool.and_eq_true]; exact ⟨bne_iff_ne.mpr hne, hinc⟩⟩
  have hlen : ¬(logs.length = 0) := by
    intro h0
    rw [List.length_eq_zero] at h0
    subst h0
    cases hr
  simp [hany, hlen]

/-- The dedup guard of the outer catch pushes on an empty sequence. -/
theorem dedupPush_empty (errorMsg fullError : String) :
    dedupPush [] errorMsg fullError
      = [⟨.error, "Server execution error: " ++ fullError⟩] := by
  simp [dedupPush]

/-- `getField` results that succeed do not depend on the host oracles. -/
theorem getField_ok_host_independent (h1 h2 : Host) (v : JValue) (key : String) (r : JValue)
    (h : getField h1 v key = .ok r) : getField h2 v key = .ok r := by
  cases v <;> simp [getField] at h ⊢ <;> exact h

/-- Deleting a cache key makes its lookup miss. -/
theorem cacheLookup_after_delete (cache : List (String × JValue)) (key : String) :
    cacheLookup (cacheAfterDelete cache key) key = none := by
  induction cache with
  | nil => rfl
  | cons kv rest ih =>
    rw [cacheAfterDelete, List.filter_cons]
    by_cases h : kv.1 = key
    · simp only [h, bne_self_eq_false]
      exact ih
    · simp only [bne_iff_ne, ne_eq, h, not_false_eq_true, if_true]
      rw [cacheLookup]
      simp only [h, if_false]
      exact ih

/-- Reduction of the handler on a parse failure. -/
theorem handleRunEnd_parse_error (host : Host) (body msg : String)
    (hparse : host.parse (effectiveBody body) = .error msg) :
    handleRunEnd host body
      = outerCatch [] ⟨errorToString ("Invalid JSON: " ++ msg),
          host.newErrorStack ("Invalid JSON: " ++ msg)⟩ := by
  unfold handleRunEnd
  rw [hparse]

/-- Reduction of the handler on a parse success. -/
theorem handleRunEnd_parse_ok (host : Host) (body : String) (payload : JValue)
    (hparse : host.parse (effectiveBody body) = .ok payload) :
    handleRunEnd host body = withPayload host payload := by
  unfold handleRunEnd
  rw [hparse]

/-- Reduction of the payload stage when the code field is a string. -/
theorem withPayload_str (host : Host) (payload : JValue) (code : String)
    (hfield : getField host payload "code" = .ok (.str code)) :
    withPayload host payload = runSnippet host code := by
  unfold withPayload
  rw [hfield]

/-- C9: every capture call of the collector appends exactly one record
whose level is the called level and whose message joins the rendered
arguments with single spaces; the sequence lists the calls in call order,
and a later sequence extends the earlier one (append-only). -/
theorem collector_appends_in_call_order :
    (∀ lvl args logs, recordCall lvl args logs
        = logs ++ [⟨lvl, String.intercalate " " args⟩]) ∧
    (∀ events, collectEvents events
        = events.map (fun ev => ⟨ev.1, renderArgs ev.2⟩)) ∧
    (∀ evs evs2, collectEvents (evs ++ evs2)
        = collectEvents evs ++ collectEvents evs2) := by
  refine ⟨fun lvl args logs => rfl, fun events => ?_, fun evs evs2 => ?_⟩
  · rw [collectEvents, collectEvents_from, List.nil_append]
  · rw [collectEvents, collectEvents, collectEvents,
        collectEvents_from, collectEvents_from, collectEvents_from,
        List.map_append]
    simp

/-- C10: an empty request body is replaced by the two-character brace
string before parsing, so (with JSON.parse behaving as standard on that
string) the request does not fail parsing and is rejected with the 400
Missing code response, with an empty log sequence. -/
theorem emptyBody_is_empty_object (host : Host)
    (hparse : host.parse "\x7b\x7d" = .ok (.obj [])) :
    effectiveBody "" = "\x7b\x7d" ∧
    handleRunEnd host "" = (missingCodeResponse, []) := by
  refine ⟨rfl, ?_⟩
  rw [handleRunEnd_parse_ok host "" (.obj []) (by rw [show effectiveBody "" = "\x7b\x7d" from rfl, hparse])]
  rfl

/-- Witness for C10 at the concrete host: the empty body yields the 400
Missing code response. -/
theorem emptyBody_is_empty_object_witness :
    basicHost.parse "\x7b\x7d" = .ok (.obj []) ∧
    (effectiveBody "" = "\x7b\x7d" ∧
     handleRunEnd basicHost "" = (missingCodeResponse, [])) :=
  ⟨rfl, emptyBody_is_empty_object basicHost rfl⟩

/-- C8 (amended): when the body parses to a JSON value on which reading
`.code` does not throw (that is, any value except `null`) and the field is
absent or not a string, the handler responds 400 Missing code with an
empty log sequence, and the response does not depend on the snippet
execution oracle at all (no execution is attempted). -/
theorem missingCode_no_execution (host : Host) (body : String) (payload codeVal : JValue)
    (hparse : host.parse (effectiveBody body) = .ok payload)
    (hfield : getField host payload "code" = .ok codeVal)
    (hnotstr : typeofIsString codeVal = false) :
    handleRunEnd host body = (missingCodeResponse, []) ∧
    (∀ ex, handleRunEnd { host with exec := ex } body = (missingCodeResponse, [])) := by
  have key : ∀ (h2 : Host), h2.parse = host.parse →
      handleRunEnd h2 body = (missingCodeResponse, []) := by
    intro h2 hp
    have hf2 : getField h2 payload "code" = .ok codeVal :=
      getField_ok_host_independent host h2 payload "code" codeVal hfield
    rw [handleRunEnd_parse_ok h2 body payload (by rw [hp, hparse])]
    unfold withPayload
    rw [hf2]
    cases codeVal with
    | str s => simp [typeofIsString] at hnotstr
    | undefined => rfl
    | null => rfl
    | bool b => rfl
    | num n => rfl
    | arr xs => rfl
    | obj fs => rfl
  exact ⟨key host rfl, fun ex => key { host with exec := ex } rfl⟩

/-- Witness for C8's amended statement: a body whose code field is the
number 5 is rejected with Missing code regardless of the execution oracle. -/
theorem missingCode_no_execution_witness :
    basicHost.parse (effectiveBody "\x7b\"code\":5\x7d") = .ok (.obj [("code", .num 5)]) ∧
    getField basicHost (.obj [("code", .num 5)]) "code" = .ok (.num 5) ∧
    typeofIsString (.num 5) = false ∧
    handleRunEnd basicHost "\x7b\"code\":5\x7d" = (missingCodeResponse, []) :=
  ⟨rfl, rfl, rfl,
   (missingCode_no_execution basicHost "\x7b\"code\":5\x7d" (.obj [("code", .num 5)])
      (.num 5) rfl rfl rfl).1⟩

/-- C8 counterexample: the body `null` parses as JSON and has no code
field, yet the response is the 500 produced by the TypeError of reading
`.code` on `null`, not the 400 Missing code response. -/
theorem nullBody_not_missing_code :
    basicHost.parse "null" = .ok .null ∧
    (handleRunEnd basicHost "null").1.status = 500 ∧
    (handleRunEnd basicHost "null").1.status ≠ 400 := by
  refine ⟨rfl, rfl, by decide⟩

/-- C4: a relative specifier whose examples-directory candidate and
working-directory candidate both fail the existence check makes
`safeRequire` fail with the module-not-found error naming the specifier,
while the diagnostic lists both attempted resolved paths. -/
theorem relative_require_not_found (env : ResolveEnv) (id : String)
    (hrel : isRelativeSpecifier id = true)
    (h1 : env.pathExists (env.resolve env.examplesPath id) = false)
    (h2 : env.pathExists (env.resolve env.cwd id) = false) :
    safeRequirePlan env id
      = .sandboxFail id (env.resolve env.examplesPath id) (env.resolve env.cwd id) ∧
    env.resolve env.examplesPath id
      ∈ requireFailDiag id (env.resolve env.examplesPath id) (env.resolve env.cwd id) ∧
    env.resolve env.cwd id
      ∈ requireFailDiag id (env.resolve env.examplesPath id) (env.resolve env.cwd id) ∧
    moduleNotFoundMsg id = "Cannot find module \x27" ++ id ++ "\x27" := by
  refine ⟨?_, ?_, ?_, rfl⟩
  · simp [safeRequirePlan, hrel, h1, h2]
  · simp [requireFailDiag]
  · simp [requireFailDiag]

/-- Witness for C4 at a concrete environment with no existing candidate. -/
theorem relative_require_not_found_witness :
    isRelativeSpecifier "./sibling.js" = true ∧
    sampleEnvMissing.pathExists "/srv/app/examples/./sibling.js" = false ∧
    sampleEnvMissing.pathExists "/srv/app/./sibling.js" = false ∧
    safeRequirePlan sampleEnvMissing "./sibling.js"
      = .sandboxFail "./sibling.js" "/srv/app/examples/./sibling.js" "/srv/app/./sibling.js" ∧
    "/srv/app/examples/./sibling.js"
      ∈ requireFailDiag "./sibling.js" "/srv/app/examples/./sibling.js" "/srv/app/./sibling.js" ∧
    "/srv/app/./sibling.js"
      ∈ requireFailDiag "./sibling.js" "/srv/app/examples/./sibling.js" "/srv/app/./sibling.js" := by
  refine ⟨by decide, rfl, rfl, ?_, ?_, ?_⟩
  · exact (relative_require_not_found sampleEnvMissing "./sibling.js" (by decide) rfl rfl).1
  · exact (relative_require_not_found sampleEnvMissing "./sibling.js" (by decide) rfl rfl).2.1
  · exact (relative_require_not_found sampleEnvMissing "./sibling.js" (by decide) rfl rfl).2.2.1

/-- C7: relative resolution prefers the examples-directory candidate,
falls back to the working-directory candidate, and for whichever
candidate is chosen the module cache entry of the exact resolved real
path is deleted before the load, so the lookup that the load performs
misses the cache. -/
theorem relative_require_resolution_order (env : ResolveEnv) (id : String)
    (cache : List (String × JValue)) (hrel : isRelativeSpecifier id = true) :
    (env.pathExists (env.resolve env.examplesPath id) = true →
       safeRequirePlan env id
         = .sandboxLoad (env.resolve env.examplesPath id)
             (env.realpath (env.resolve env.examplesPath id))) ∧
    (env.pathExists (env.resolve env.examplesPath id) = false →
     env.pathExists (env.resolve env.cwd id) = true →
       safeRequirePlan env id
         = .sandboxLoad (env.resolve env.cwd id)
             (env.realpath (env.resolve env.cwd id))) ∧
    (∀ p r, safeRequirePlan env id = .sandboxLoad p r →
       cacheLookup (cacheAfterDelete cache r) r = none) := by
  refine ⟨?_, ?_, ?_⟩
  · intro h1
    simp [safeRequirePlan, hrel, h1]
  · intro h1 h2
    simp [safeRequirePlan, hrel, h1, h2]
  · intro p r _
    exact cacheLookup_after_delete cache r

/-- Witness for C7: the examples candidate exists and is chosen; the
cache entry of the resolved real path is evicted before loading. -/
theorem relative_require_resolution_order_witness :
    isRelativeSpecifier "./mod.js" = true ∧
    sampleEnvFound.pathExists "/srv/app/examples/./mod.js" = true ∧
    safeRequirePlan sampleEnvFound "./mod.js"
      = .sandboxLoad "/srv/app/examples/./mod.js" "/srv/app/examples/mod.js" ∧
    cacheLookup
      (cacheAfterDelete [("/srv/app/examples/mod.js", JValue.num 1)] "/srv/app/examples/mod.js")
      "/srv/app/examples/mod.js" = none := by
  refine ⟨by decide, by decide, ?_, ?_⟩
  · exact (relative_require_resolution_order sampleEnvFound "./mod.js" [] (by decide)).1 (by decide)
  · exact (relative_require_resolution_order sampleEnvFound "./mod.js"
      [("/srv/app/examples/mod.js", JValue.num 1)] (by decide)).2.2
      "/srv/app/examples/./mod.js" "/srv/app/examples/mod.js"
      ((relative_require_resolution_order sampleEnvFound "./mod.js"
        [("/srv/app/examples/mod.js", JValue.num 1)] (by decide)).1 (by decide))

/-- C5: a parsed body with a string code whose execution succeeds with
value `v` and no console calls is answered 200 with
`ok=true`, `result = v ?? null` and an empty logs array; nullish results
(`undefined` or `null`) become an explicit `null` and all other values
pass through unchanged. -/
theorem success_response (host : Host) (body : String) (payload : JValue)
    (code : String) (value : JValue)
    (hparse : host.parse (effectiveBody body) = .ok payload)
    (hfield : getField host payload "code" = .ok (.str code))
    (hexec : host.exec code = .success [] value) :
    handleRunEnd host body
      = (⟨200, .obj [("ok", .bool true), ("result", nullCoalesce value),
                     ("logs", .arr [])]⟩, []) ∧
    nullCoalesce .undefined = .null ∧ nullCoalesce .null = .null ∧
    (∀ b, nullCoalesce (.bool b) = .bool b) ∧
    (∀ n, nullCoalesce (.num n) = .num n) ∧
    (∀ s, nullCoalesce (.str s) = .str s) ∧
    (∀ xs, nullCoalesce (.arr xs) = .arr xs) ∧
    (∀ fs, nullCoalesce (.obj fs) = .obj fs) := by
  refine ⟨?_, rfl, rfl, fun b => rfl, fun n => rfl, fun s => rfl,
          fun xs => rfl, fun fs => rfl⟩
  rw [handleRunEnd_parse_ok host body payload hparse,
      withPayload_str host payload code hfield]
  unfold runSnippet
  rw [hexec]
  rfl

/-- Witness for C5: the snippet `1+1` evaluates to 2 and is answered
`200 ok=true result=2 logs=[]`. -/
theorem success_response_witness :
    basicHost.parse (effectiveBody "\x7b\"code\":\"1+1\"\x7d")
      = .ok (.obj [("code", .str "1+1")]) ∧
    getField basicHost (.obj [("code", .str "1+1")]) "code" = .ok (.str "1+1") ∧
    basicHost.exec "1+1" = .success [] (.num 2) ∧
    handleRunEnd basicHost "\x7b\"code\":\"1+1\"\x7d"
      = (⟨200, .obj [("ok", .bool true), ("result", .num 2), ("logs", .arr [])]⟩, []) :=
  ⟨rfl, rfl, rfl,
   (success_response basicHost "\x7b\"code\":\"1+1\"\x7d" (.obj [("code", .str "1+1")])
      "1+1" (.num 2) rfl rfl rfl).1⟩

/-- C6: when evaluation throws, the per-request sequence ends with exactly
one additional ERROR record carrying the rendered message plus stack (the
`Script execution error` record pushed by the inner catch), and the outer
catch's deduplicated push appends nothing further because that record
already includes the error text; when compilation throws, the one ERROR
record is the outer catch's `Server execution error` record. -/
theorem exec_failure_single_error_record (host : Host) (body : String) (payload : JValue)
    (code : String)
    (hparse : host.parse (effectiveBody body) = .ok payload)
    (hfield : getField host payload "code" = .ok (.str code)) :
    (∀ events e, host.exec code = .runtimeError events e →
       (handleRunEnd host body).2
         = collectEvents events
             ++ [⟨.error, "Script execution error: " ++ renderFullError e⟩]) ∧
    (∀ e, host.exec code = .compileError e →
       (handleRunEnd host body).2
         = [⟨.error, "Server execution error: " ++ renderFullError e⟩]) := by
  constructor
  · intro events e hexec
    rw [handleRunEnd_parse_ok host body payload hparse,
        withPayload_str host payload code hfield]
    unfold runSnippet
    rw [hexec]
    show dedupPush
        (collectEvents events ++ [⟨.error, "Script execution error: " ++ renderFullError e⟩])
        e.toStr (renderFullError e)
      = collectEvents events ++ [⟨.error, "Script execution error: " ++ renderFullError e⟩]
    apply dedupPush_no_push _ _ _
      ⟨.error, "Script execution error: " ++ renderFullError e⟩
    · simp
    · exact strAppend_ne_empty _ _ (by decide)
    · show strIncludes ("Script execution error: " ++ renderFullError e) e.toStr = true
      rw [renderFullError]
      exact strIncludes_mid "Script execution error: " e.toStr (stackSuffix e.stack)
  · intro e hexec
    rw [handleRunEnd_parse_ok host body payload hparse,
        withPayload_str host payload code hfield]
    unfold runSnippet
    rw [hexec]
    show dedupPush [] e.toStr (renderFullError e)
      = [⟨.error, "Server execution error: " ++ renderFullError e⟩]
    exact dedupPush_empty e.toStr (renderFullError e)

/-- Witness for C6: a snippet that logs once and throws adds exactly the
one Script execution error record after its console record; a snippet
that fails to compile yields exactly the one Server execution error
record. -/
theorem exec_failure_single_error_record_witness :
    basicHost.exec "boom"
      = .runtimeError [(.log, ["hi"])]
          ⟨"Error: boom", some "Error: boom\n    at user-code.js:1"⟩ ∧
    (handleRunEnd basicHost "\x7b\"code\":\"boom\"\x7d").2
      = [⟨.log, "hi"⟩,
         ⟨.error, "Script execution error: Error: boom | stack: Error: boom\n    at user-code.js:1"⟩] ∧
    basicHost.exec "bad syntax" = .compileError ⟨"SyntaxError: Unexpected identifier", none⟩ ∧
    (handleRunEnd basicHost "\x7b\"code\":\"bad syntax\"\x7d").2
      = [⟨.error, "Server execution error: SyntaxError: Unexpected identifier"⟩] := by
  refine ⟨rfl, ?_, rfl, ?_⟩
  · exact (exec_failure_single_error_record basicHost "\x7b\"code\":\"boom\"\x7d"
      (.obj [("code", .str "boom")]) "boom" rfl rfl).1
      [(.log, ["hi"])] ⟨"Error: boom", some "Error: boom\n    at user-code.js:1"⟩ rfl
  · exact (exec_failure_single_error_record basicHost "\x7b\"code\":\"bad syntax\"\x7d"
      (.obj [("code", .str "bad syntax")]) "bad syntax" rfl rfl).2
      ⟨"SyntaxError: Unexpected identifier", none⟩ rfl

/-- C1 (amended): an invalid JSON body is wrapped as
`new Error("Invalid JSON: " + detail)`, rethrown into the outer catch,
and answered by sendError with status 500; the error text is the wrapped
error's `String(...)` rendering followed by the stack suffix when the
wrapped error has a stack, the response's logs field is the empty array,
and one Server execution error record is pushed into the per-request
sequence. -/
theorem invalid_json_500_with_stack (host : Host) (body msg : String)
    (hparse : host.parse (effectiveBody body) = .error msg) :
    handleRunEnd host body
      = (sendError 500 (errorToString ("Invalid JSON: " ++ msg)
            ++ stackSuffix (host.newErrorStack ("Invalid JSON: " ++ msg))),
         [⟨.error, "Server execution error: "
            ++ (errorToString ("Invalid JSON: " ++ msg)
                ++ stackSuffix (host.newErrorStack ("Invalid JSON: " ++ msg)))⟩]) := by
  rw [handleRunEnd_parse_error host body msg hparse]
  rfl

/-- Witness for C1's amended statement at the concrete host. -/
theorem invalid_json_500_with_stack_witness :
    basicHost.parse (effectiveBody "not json") = .error "Unexpected token" ∧
    handleRunEnd basicHost "not json"
      = (sendError 500 "Error: Invalid JSON: Unexpected token | stack: Error: Invalid JSON: Unexpected token\n    at parse",
         [⟨.error, "Server execution error: Error: Invalid JSON: Unexpected token | stack: Error: Invalid JSON: Unexpected token\n    at parse"⟩]) :=
  ⟨rfl, invalid_json_500_with_stack basicHost "not json" "Unexpected token" rfl⟩

/-- C1 counterexample: for a body that is not valid JSON the status is
500, not 400, and the error string carries a stack suffix. -/
theorem invalid_json_counterexample :
    (handleRunEnd basicHost "not json").1.status = 500 ∧
    (handleRunEnd basicHost "not json").1.status ≠ 400 ∧
    jsonField (handleRunEnd basicHost "not json").1.body "error"
      = some (.str "Error: Invalid JSON: Unexpected token | stack: Error: Invalid JSON: Unexpected token\n    at parse") ∧
    strIncludes "Error: Invalid JSON: Unexpected token | stack: Error: Invalid JSON: Unexpected token\n    at parse"
      " | stack: " = true := by
  refine ⟨rfl, by decide, rfl, by decide⟩

/-- C2: at the failing input — a snippet that logs `hi` and then throws
`Error: boom` — the 500 response produced by sendError carries the
literal empty logs array, although the per-request sequence captured the
console record and the Script execution error record before responding:
the captured logs are dropped from the error response. -/
theorem error_response_drops_captured_logs :
    (handleRunEnd basicHost "\x7b\"code\":\"boom\"\x7d").1
      = sendError 500 "Error: boom | stack: Error: boom\n    at user-code.js:1" ∧
    jsonField (handleRunEnd basicHost "\x7b\"code\":\"boom\"\x7d").1.body "logs"
      = some (.arr []) ∧
    (handleRunEnd basicHost "\x7b\"code\":\"boom\"\x7d").2
      = [⟨.log, "hi"⟩,
         ⟨.error, "Script execution error: Error: boom | stack: Error: boom\n    at user-code.js:1"⟩] ∧
    (handleRunEnd basicHost "\x7b\"code\":\"boom\"\x7d").2 ≠ [] := by
  refine ⟨rfl, rfl, rfl, by decide⟩

/-- C3 (amended): every POST /run response other than the Missing code
rejection carries a logs field — sendError responses carry it as the
literal empty array and the success response carries the serialized
captured records — while the Missing code response carries no logs field
at all. -/
theorem logs_field_every_response_but_missing_code :
    (∀ host body,
       (handleRunEnd host body).1 = missingCodeResponse ∨
       jsonField (handleRunEnd host body).1.body "logs" ≠ none) ∧
    jsonField missingCodeResponse.body "logs" = none ∧
    (∀ status e, jsonField (sendError status e).body "logs" = some (.arr [])) := by
  refine ⟨?_, rfl, fun status e => rfl⟩
  intro host body
  cases hp : host.parse (effectiveBody body) with
  | error msg =>
    right
    rw [handleRunEnd_parse_error host body msg hp]
    intro h
    exact Option.noConfusion h
  | ok payload =>
    rw [handleRunEnd_parse_ok host body payload hp]
    cases hf : getField host payload "code" with
    | error e =>
      right
      rw [show withPayload host payload = outerCatch [] e by
        unfold withPayload; rw [hf]]
      intro h
      exact Option.noConfusion h
    | ok codeVal =>
      cases codeVal with
      | str code =>
        rw [withPayload_str host payload code hf]
        cases hx : host.exec code with
        | compileError e =>
          right
          rw [show runSnippet host code = outerCatch [] e by
            unfold runSnippet; rw [hx]]
          intro h
          exact Option.noConfusion h
        | runtimeError events e =>
          right
          rw [show runSnippet host code
              = outerCatch (collectEvents events
                  ++ [⟨.error, "Script execution error: " ++ renderFullError e⟩]) e by
            unfold runSnippet; rw [hx]]
          intro h
          exact Option.noConfusion h
        | success events value =>
          right
          rw [show runSnippet host code
              = (⟨200, .obj [("ok", .bool true), ("result", nullCoalesce value),
                    ("logs", logsToJson (collectEvents events))]⟩, collectEvents events) by
            unfold runSnippet; rw [hx]]
          intro h
          exact Option.noConfusion h
      | undefined =>
        left
        rw [show withPayload host payload = (missingCodeResponse, []) by
          unfold withPayload; rw [hf]]
      | null =>
        left
        rw [show withPayload host payload = (missingCodeResponse, []) by
          unfold withPayload; rw [hf]]
      | bool b =>
        left
        rw [show withPayload host payload = (missingCodeResponse, []) by
          unfold withPayload; rw [hf]]
      | num n =>
        left
        rw [show withPayload host payload = (missingCodeResponse, []) by
          unfold withPayload; rw [hf]]
      | arr xs =>
        left
        rw [show withPayload host payload = (missingCodeResponse, []) by
          unfold withPayload; rw [hf]]
      | obj fs =>
        left
        rw [show withPayload host payload = (missingCodeResponse, []) by
          unfold withPayload; rw [hf]]

/-- C3 counterexample: the Missing code rejection for an empty-object
body has no logs field in its JSON body. -/
theorem missing_code_lacks_logs_field :
    (handleRunEnd basicHost "\x7b\x7d").1 = missingCodeResponse ∧
    jsonField (handleRunEnd basicHost "\x7b\x7d").1.body "logs" = none ∧
    jsonField (handleRunEnd basicHost "\x7b\x7d").1.body "error"
      = some (.str "Missing code") :=
  ⟨rfl, rfl, rfl⟩
